import Mathlib

/-!
Verification of the homelab power-lifecycle orchestrator.

This file shallowly embeds the core of the repository (the config store in
`src/server/config.py`, the power state machines in
`src/server/power_service.py`, the status aggregation in
`src/server/status_service.py` and the validation prologue of the
`/power/on` route in `src/server/main.py`) and proves the frozen claims
about it.

Modelling conventions:
 - Python dicts keyed by name become association lists `List (String × α)`
   with first-match lookup; `dictSet` replaces in place, `dictRemove`
   deletes the key, mirroring `d[k] = v` / `del d[k]` on dicts whose keys
   are unique.
 - Python floats become `Rat` (exact arithmetic); `round(x, n)` becomes
   `roundTo n` using round-half-to-even, Python's rounding mode.
 - Wall-clock time is idealized to a tick counter: monitoring loops poll
   every 2 seconds, so tick `i` happens at time `2*i` seconds and the 60 s /
   120 s bounds become 30 / 60 ticks of fuel (kept as a parameter).
 - Network calls are oracles supplied by the environment: `ping` and the
   per-tick power reads are indexed by the tick at which they happen, and
   every fallible call is an `Except String` value.  `config.save()` is
   modelled by returning a flag that says whether a durable write happened
   (persistence itself is outside the claims).
-/

namespace Homelab

/-! ## Data model (src/server/config.py) -/

/-- A plug record, `{"ip": ...}`. -/
structure PlugRec where
  ip : String
deriving DecidableEq

/-- A server record, `{"hostname": ..., "mac": ..., "plug": ...}`.
`mac` is stored as a plain string (empty when absent); `plug` is `None`
or a plug name. -/
structure ServerRec where
  hostname : String
  mac : String
  plug : Option String
deriving DecidableEq

/-- A per-server liveness record,
`{"online": ..., "last_change": ..., "uptime_start": ...}`.
Timestamps are abstract instants (`Nat`). -/
structure LivenessRec where
  online : Bool
  last_change : Nat
  uptime_start : Option Nat
deriving DecidableEq

/-- The whole JSON document held by `Config.data`. -/
structure ConfigData where
  plugs : List (String × PlugRec)
  servers : List (String × ServerRec)
  state : List (String × LivenessRec)
  electricity_price : Rat
deriving DecidableEq

/-- `d[k] = v` on a Python dict: replace the (unique) binding in place,
append if absent. -/
def dictSet {α : Type} (k : String) (v : α) : List (String × α) → List (String × α)
  | [] => [(k, v)]
  | (k', v') :: rest => if k' = k then (k, v) :: rest else (k', v') :: dictSet k v rest

/-- `del d[k]` on a Python dict. -/
def dictRemove {α : Type} (k : String) (l : List (String × α)) : List (String × α) :=
  l.filter (fun q => q.1 != k)

/-- `Config.get_plug`. -/
def get_plug (d : ConfigData) (name : String) : Option PlugRec :=
  List.lookup name d.plugs

/-- `Config.get_server`. -/
def get_server (d : ConfigData) (name : String) : Option ServerRec :=
  List.lookup name d.servers

/-- `Config.get_server_state`. -/
def get_server_state (d : ConfigData) (name : String) : Option LivenessRec :=
  List.lookup name d.state

/-- `Config.get_electricity_price`. -/
def get_electricity_price (d : ConfigData) : Rat :=
  d.electricity_price

/-- `Config.add_plug` (mutation; the unconditional `save()` is implicit). -/
def add_plug (d : ConfigData) (name ip : String) : ConfigData :=
  { d with plugs := dictSet name ⟨ip⟩ d.plugs }

/-- `Config.remove_plug`: deletes the plug if present and reports whether it
did.  It never touches `servers` (no cascade). -/
def remove_plug (d : ConfigData) (name : String) : ConfigData × Bool :=
  match List.lookup name d.plugs with
  | some _ => ({ d with plugs := dictRemove name d.plugs }, true)
  | none => (d, false)

/-- `Config.add_server`: stores `{"hostname": hostname, "mac": mac or "",
"plug": plug_name}`, replacing any previous record under the same name. -/
def add_server (d : ConfigData) (name hostname : String)
    (mac : Option String) (plug_name : Option String) : ConfigData :=
  { d with servers := dictSet name ⟨hostname, mac.getD "", plug_name⟩ d.servers }

/-- `Config.remove_server`. -/
def remove_server (d : ConfigData) (name : String) : ConfigData × Bool :=
  match List.lookup name d.servers with
  | some _ => ({ d with servers := dictRemove name d.servers }, true)
  | none => (d, false)

/-- `Config.update_server_state(name, online)` at instant `now`.  The
returned flag is `state_changed`, i.e. whether `save()` performed a durable
write.  A first observation always writes; afterwards only a changed
`online` value writes, and the write sets `last_change` to `now` and
`uptime_start` to `now` (online) or `None` (offline). -/
def update_server_state (d : ConfigData) (name : String) (online : Bool)
    (now : Nat) : ConfigData × Bool :=
  match List.lookup name d.state with
  | none =>
      ({ d with state :=
          dictSet name ⟨online, now, if online then some now else none⟩ d.state },
        true)
  | some cur =>
      if cur.online != online then
        ({ d with state :=
            dictSet name ⟨online, now, if online then some now else none⟩ d.state },
          true)
      else
        (d, false)

/-! ## `/power/on` route validation (src/server/main.py, power_on_server) -/

/-- The structured errors the route can answer with before streaming. -/
inductive ApiError where
  | notFound (detail : String)
  | badRequest (detail : String)
deriving DecidableEq

/-- The validation prologue of the `POST /power/on` handler: resolve the
server, require a truthy `plug` reference and a truthy `mac`, then resolve
the plug; every failure is a structured HTTP error, success hands the
records to the orchestrator. -/
def power_on_server (d : ConfigData) (name : String) :
    Except ApiError (ServerRec × PlugRec) :=
  match get_server d name with
  | none => Except.error (ApiError.notFound ("Server " ++ name ++ " not found"))
  | some server =>
    match server.plug with
    | none =>
        Except.error (ApiError.badRequest
          ("No plug associated with server " ++ name))
    | some p =>
      if p = "" then
        Except.error (ApiError.badRequest
          ("No plug associated with server " ++ name))
      else if server.mac = "" then
        Except.error (ApiError.badRequest
          ("No MAC address configured for server " ++ name))
      else
        match get_plug d p with
        | none => Except.error (ApiError.notFound ("Plug " ++ p ++ " not found"))
        | some plug => Except.ok (server, plug)

/-! ## Association-list lemmas -/

theorem lookup_dictSet_self {α : Type} (k : String) (v : α)
    (l : List (String × α)) : List.lookup k (dictSet k v l) = some v := by
  induction l with
  | nil => simp [dictSet, List.lookup]
  | cons hd tl ih =>
      obtain ⟨k', v'⟩ := hd
      by_cases hk : k' = k
      · simp [dictSet, hk, List.lookup]
      · have hbeq : (k == k') = false :=
          beq_eq_false_iff_ne.mpr (fun h => hk h.symm)
        simp [dictSet, hk, List.lookup, hbeq, ih]

theorem lookup_dictSet_ne {α : Type} {k m : String} (v : α)
    (l : List (String × α)) (hne : m ≠ k) :
    List.lookup m (dictSet k v l) = List.lookup m l := by
  have hmk : (m == k) = false := beq_eq_false_iff_ne.mpr hne
  induction l with
  | nil => simp [dictSet, List.lookup, hmk]
  | cons hd tl ih =>
      obtain ⟨k', v'⟩ := hd
      by_cases hk : k' = k
      · subst hk
        simp [dictSet, List.lookup, hmk]
      · by_cases hm : m = k'
        · subst hm
          simp [dictSet, hk, List.lookup]
        · have hbeq : (m == k') = false := beq_eq_false_iff_ne.mpr hm
          simp [dictSet, hk, List.lookup, hbeq, ih]

theorem lookup_dictRemove_self {α : Type} (k : String) (l : List (String × α)) :
    List.lookup k (dictRemove k l) = none := by
  induction l with
  | nil => simp [dictRemove]
  | cons hd tl ih =>
      obtain ⟨k', v'⟩ := hd
      by_cases hk : k' = k
      · subst hk
        simpa [dictRemove, List.filter] using ih
      · have hbeq : (k == k') = false :=
          beq_eq_false_iff_ne.mpr (fun h => hk h.symm)
        have hbne : (k' != k) = true := by
          simp [bne_iff_ne, hk]
        simp only [dictRemove, List.filter] at ih ⊢
        simp [hbne, List.lookup, hbeq, ih]

/-! ## Power control service (src/server/power_service.py)

All capability calls are oracles.  `ping i` / `powAt i` are the results of
the ping / power-read made at tick `i` of a monitoring loop (the second
boot wait continues the tick count where a failed first wait stopped, so
its calls get fresh indices).  `powCheck` is the single `get_power` call
made after the first wait expires, outside any `try`. -/

/-- The capability environment of one power operation. -/
structure PowerCaps where
  turnOnR : Except String Unit
  turnOffR : Except String Unit
  wolR : Except String Unit
  shutdownR : Except String Unit
  ping : Nat → Bool
  powAt : Nat → Except String Rat
  powCheck : Except String Rat

/-- Outlet / WOL side effects attempted during an operation, in order. -/
inductive Event where
  | turnOn
  | wol
  | turnOff
deriving DecidableEq

/-- The structured result dict `{"success": ..., "message": ..., "logs": ...}`. -/
structure OpResult where
  success : Bool
  message : String
  logs : List String
deriving DecidableEq

/-- The `power < 5.0` low-power threshold used by both state machines. -/
def lowPowerThreshold : Rat := 5

/-- Rendering of a power reading inside a progress line (Python's float
formatting is abstracted to `toString`). -/
def powerLine (p : Rat) : String :=
  "Power: " ++ toString p ++ "W"

/-- `PowerControlService._monitor_boot`: up to `fuel` ticks starting at tick
`k`, succeed on the first true ping; a failed tick logs the power reading
unless that read raised (the exception is caught and only warned about, so
it adds no progress log). Returns (success, progress logs). -/
def monitor_boot (ping : Nat → Bool) (powAt : Nat → Except String Rat)
    (k : Nat) : Nat → Bool × List String
  | 0 => (false, [])
  | Nat.succ n =>
    if ping k then (true, ["Server responding to ping!"])
    else
      match powAt k with
      | Except.ok p =>
          let rest := monitor_boot ping powAt (k + 1) n
          (rest.1, powerLine p :: rest.2)
      | Except.error _ => monitor_boot ping powAt (k + 1) n

/-- `PowerControlService.power_on`.  `fuel1`/`fuel2` are the tick budgets of
the two 60 s boot waits.  Returns the side effects attempted and either the
structured result or the exception that propagated (from `turn_on`, the
post-wait `get_power`, `send_wol` or `turn_off`, none of which the source
wraps in a `try`). -/
def power_on (c : PowerCaps) (fuel1 fuel2 : Nat) :
    List Event × Except String OpResult :=
  match c.turnOnR with
  | Except.error e => ([Event.turnOn], Except.error e)
  | Except.ok _ =>
    let m1 := monitor_boot c.ping c.powAt 0 fuel1
    let logs1 := ["Turning on plug...", "Plug turned on",
      "Monitoring server boot (60s)..."] ++ m1.2
    if m1.1 then
      ([Event.turnOn],
        Except.ok ⟨true, "Server powered on successfully",
          logs1 ++ ["Server is online!"]⟩)
    else
      match c.powCheck with
      | Except.error e => ([Event.turnOn], Except.error e)
      | Except.ok power =>
        let logs2 := logs1 ++
          ["Server not responding (power: " ++ toString power ++ "W)"]
        if power < lowPowerThreshold then
          match c.wolR with
          | Except.error e => ([Event.turnOn, Event.wol], Except.error e)
          | Except.ok _ =>
            let m2 := monitor_boot c.ping c.powAt fuel1 fuel2
            let logs3 := logs2 ++ ["Sending Wake-on-LAN packet...",
              "Monitoring server boot (60s)..."] ++ m2.2
            if m2.1 then
              ([Event.turnOn, Event.wol],
                Except.ok ⟨true, "Server powered on successfully",
                  logs3 ++ ["Server is online!"]⟩)
            else
              match c.turnOffR with
              | Except.error e =>
                  ([Event.turnOn, Event.wol, Event.turnOff], Except.error e)
              | Except.ok _ =>
                  ([Event.turnOn, Event.wol, Event.turnOff],
                    Except.ok ⟨false, "Server failed to boot",
                      logs3 ++ ["Server failed to boot", "Turning off plug..."]⟩)
        else
          ([Event.turnOn],
            Except.ok ⟨true, "Server powered on successfully",
              logs2 ++ ["Server is online!"]⟩)

/-- The monitoring loop of `power_off`: at tick `i` (wall time `2*i`) read
power; below the threshold, start or keep the `timestamp_low_power` mark
and break once strictly more than 10 s have passed since it; at or above
the threshold, clear the mark; a failed read is caught and changes nothing.
Returns (broke early, progress logs). -/
def shutdown_loop (powAt : Nat → Except String Rat) (i : Nat)
    (lowSince : Option Nat) : Nat → Bool × List String
  | 0 => (false, [])
  | Nat.succ n =>
    match powAt i with
    | Except.ok p =>
      if p < lowPowerThreshold then
        let j := lowSince.getD i
        if 2 * i - 2 * j > 10 then
          (true, [powerLine p, "Server powered down"])
        else
          let rest := shutdown_loop powAt (i + 1) (some j) n
          (rest.1, powerLine p :: rest.2)
      else
        let rest := shutdown_loop powAt (i + 1) none n
        (rest.1, powerLine p :: rest.2)
    | Except.error _ => shutdown_loop powAt (i + 1) lowSince n

/-- `PowerControlService.power_off`.  The graceful-shutdown command and the
loop's power reads are wrapped in `try` (their failures only shape the
logs); the final `turn_off` is not, so its failure propagates.  On normal
return the result is always `success := true`. -/
def power_off (c : PowerCaps) (fuel : Nat) :
    List Event × Except String OpResult :=
  let logs1 := ["Sending shutdown command..."] ++
    (match c.shutdownR with
     | Except.ok _ => ["Shutdown command sent"]
     | Except.error e =>
        ["Failed to send shutdown: " ++ e, "Continuing with power monitoring..."])
  let loop := shutdown_loop c.powAt 0 none fuel
  let logs2 := logs1 ++ ["Monitoring server shutdown..."] ++ loop.2 ++
    (if loop.1 then [] else ["Timeout waiting for shutdown"])
  match c.turnOffR with
  | Except.error e => ([Event.turnOff], Except.error e)
  | Except.ok _ =>
      ([Event.turnOff],
        Except.ok ⟨true, "Server powered off successfully",
          logs2 ++ ["Turning off plug...", "Server is offline"]⟩)

/-! ## Status service (src/server/status_service.py, src/server/plug_service.py) -/

/-- What `device.get_device_info()` yields in `get_full_status`. -/
structure DeviceInfo where
  device_on : Bool
  signal_level : Int
deriving DecidableEq

/-- What `device.get_energy_usage()` yields in `get_energy_usage`. -/
structure UsageData where
  today_runtime : Rat
  today_energy : Rat
  month_runtime : Rat
  month_energy : Rat
deriving DecidableEq

/-- The merged telemetry dict built by `get_energy_usage` / `get_full_status`. -/
structure EnergyData where
  current_power : Rat
  today_runtime : Rat
  today_energy : Rat
  month_runtime : Rat
  month_energy : Rat
deriving DecidableEq

/-- Outcomes of the individual Outlet fetches one full-status call makes:
the client+device-info step of `get_full_status`, and the client, current
power and energy-usage steps of `get_energy_usage`. -/
structure FetchOracle where
  fullInfo : Except String DeviceInfo
  energyClient : Except String Unit
  energyCurrent : Except String Rat
  energyUsage : Except String UsageData

/-- `PlugService.get_energy_usage`: every fetch failure is caught and
replaced by an all-zero dict, so the function is total. -/
def get_energy_usage (o : FetchOracle) : EnergyData :=
  match o.energyClient, o.energyCurrent, o.energyUsage with
  | Except.ok _, Except.ok cur, Except.ok u =>
      ⟨cur, u.today_runtime, u.today_energy, u.month_runtime, u.month_energy⟩
  | _, _, _ => ⟨0, 0, 0, 0, 0⟩

/-- The flattened dict `get_full_status` returns. -/
structure FullStatus where
  is_on : Bool
  signal_level : Int
  current_power : Rat
  today_runtime : Rat
  today_energy : Rat
  month_runtime : Rat
  month_energy : Rat
deriving DecidableEq

/-- `PlugService.get_full_status`: on any failure of the client/device-info
fetch it catches the exception and returns the default offline-shaped dict
(`on = false`, zero telemetry); it never raises. -/
def get_full_status (o : FetchOracle) : FullStatus :=
  match o.fullInfo with
  | Except.ok info =>
      let e := get_energy_usage o
      ⟨info.device_on, info.signal_level, e.current_power, e.today_runtime,
        e.today_energy, e.month_runtime, e.month_energy⟩
  | Except.error _ => ⟨false, 0, 0, 0, 0, 0, 0⟩

/-- Round-half-to-even to an integer, Python's `round`. -/
def roundHalfEven (q : Rat) : Int :=
  let f := ⌊q⌋
  let r := q - (f : Rat)
  if r < 1 / 2 then f
  else if 1 / 2 < r then f + 1
  else if f % 2 = 0 then f else f + 1

/-- Python's `round(q, d)`. -/
def roundTo (d : Nat) (q : Rat) : Rat :=
  (roundHalfEven (q * 10 ^ d) : Rat) / 10 ^ d

/-- One entry of the snapshot's `plugs` list. -/
structure PlugStatus where
  name : String
  ip : String
  online : Bool
  state : String
  current_power : Rat
  current_cost_per_hour : Rat
  today_energy : Rat
  today_cost : Rat
  today_runtime : Rat
  month_energy : Rat
  month_cost : Rat
  month_runtime : Rat
  error : Option String
deriving DecidableEq

/-- `StatusService.get_plug_status`: builds the success-shaped entry from
`get_full_status` and the configured electricity price.  Its `except`
branch (`online := false` with the error string) is unreachable for Outlet
failures because `get_full_status` is total, so the model is the `try`
body. -/
def get_plug_status (d : ConfigData) (name ip : String) (o : FetchOracle) :
    PlugStatus :=
  let status := get_full_status o
  let today_hours := if status.today_runtime ≠ 0 then status.today_runtime / 60 else 0
  let month_hours := if status.month_runtime ≠ 0 then status.month_runtime / 60 else 0
  let price := get_electricity_price d
  let today_cost := if price > 0 then status.today_energy / 1000 * price else 0
  let month_cost := if price > 0 then status.month_energy / 1000 * price else 0
  let current_cost_per_hour :=
    if price > 0 then status.current_power / 1000 * price else 0
  { name := name
    ip := ip
    online := true
    state := if status.is_on then "on" else "off"
    current_power := roundTo 1 status.current_power
    current_cost_per_hour := roundTo 4 current_cost_per_hour
    today_energy := roundTo 1 status.today_energy
    today_cost := roundTo 4 today_cost
    today_runtime := roundTo 1 today_hours
    month_energy := roundTo 1 status.month_energy
    month_cost := roundTo 4 month_cost
    month_runtime := roundTo 1 month_hours
    error := none }

/-! ## Claims about the config store -/

/-- Step shape of `update_server_state` on a first observation. -/
theorem update_state_new (d : ConfigData) (n : String) (v : Bool) (now : Nat)
    (h : List.lookup n d.state = none) :
    update_server_state d n v now =
      ({ d with state :=
          dictSet n ⟨v, now, if v then some now else none⟩ d.state }, true) := by
  simp [update_server_state, h]

/-- Step shape of `update_server_state` when the recorded value is
unchanged: no durable write. -/
theorem update_state_same (d : ConfigData) (n : String) (v : Bool) (now : Nat)
    (cur : LivenessRec) (h : List.lookup n d.state = some cur)
    (hsame : cur.online = v) :
    update_server_state d n v now = (d, false) := by
  simp [update_server_state, h, hsame]

/-- Step shape of `update_server_state` on a transition: one durable write
refreshing `last_change` and `uptime_start`. -/
theorem update_state_change (d : ConfigData) (n : String) (v : Bool) (now : Nat)
    (cur : LivenessRec) (h : List.lookup n d.state = some cur)
    (hdiff : cur.online ≠ v) :
    update_server_state d n v now =
      ({ d with state :=
          dictSet n ⟨v, now, if v then some now else none⟩ d.state }, true) := by
  have hbne : (cur.online != v) = true := by simp [bne_iff_ne, hdiff]
  simp [update_server_state, h, hbne]

/-- Claim C4: for every server name and boolean, the first call to
`update_server_state` performs exactly one durable write, a second call
with the same value performs none, and a subsequent call with the flipped
value performs exactly one more. -/
theorem update_state_write_minimization (d : ConfigData) (n : String)
    (v : Bool) (t1 t2 t3 : Nat) (h : List.lookup n d.state = none) :
    (update_server_state d n v t1).2 = true ∧
    (update_server_state (update_server_state d n v t1).1 n v t2).2 = false ∧
    (update_server_state
        (update_server_state (update_server_state d n v t1).1 n v t2).1
        n (!v) t3).2 = true := by
  have hl1 : List.lookup n (update_server_state d n v t1).1.state =
      some ⟨v, t1, if v then some t1 else none⟩ := by
    rw [update_state_new d n v t1 h]
    exact lookup_dictSet_self n _ d.state
  have h2 : update_server_state (update_server_state d n v t1).1 n v t2 =
      ((update_server_state d n v t1).1, false) :=
    update_state_same _ n v t2 _ hl1 rfl
  have h3 : (update_server_state
      (update_server_state (update_server_state d n v t1).1 n v t2).1
      n (!v) t3).2 = true := by
    rw [h2]
    rw [update_state_change _ n (!v) t3 _ hl1 (by cases v <;> simp)]
  exact ⟨by rw [update_state_new d n v t1 h], by rw [h2], h3⟩

theorem update_state_write_minimization_witness :
    (List.lookup "s" (⟨[], [], [], 0⟩ : ConfigData).state = none) ∧
    ((update_server_state (⟨[], [], [], 0⟩ : ConfigData) "s" true 0).2 = true ∧
      (update_server_state
        (update_server_state (⟨[], [], [], 0⟩ : ConfigData) "s" true 0).1
        "s" true 1).2 = false ∧
      (update_server_state
        (update_server_state
          (update_server_state (⟨[], [], [], 0⟩ : ConfigData) "s" true 0).1
          "s" true 1).1
        "s" (!true) 2).2 = true) :=
  ⟨rfl, update_state_write_minimization ⟨[], [], [], 0⟩ "s" true 0 1 2 rfl⟩

/-- The claimed store invariant: a liveness record carries an
`uptime_start` exactly when it is online. -/
def LivenessInv (d : ConfigData) : Prop :=
  ∀ m r, List.lookup m d.state = some r → r.uptime_start.isSome = r.online

/-- Claim C6: `uptime_start` is non-null iff `online`, every
`update_server_state` call preserves this, a false-to-true transition sets
`uptime_start` to the current time and a true-to-false transition clears
it. -/
theorem liveness_uptime_invariant (d : ConfigData) (n : String) (v : Bool)
    (now : Nat) (hInv : LivenessInv d) :
    LivenessInv (update_server_state d n v now).1 ∧
    (∀ r, List.lookup n d.state = some r → r.online = false → v = true →
      List.lookup n (update_server_state d n v now).1.state =
        some ⟨true, now, some now⟩) ∧
    (∀ r, List.lookup n d.state = some r → r.online = true → v = false →
      List.lookup n (update_server_state d n v now).1.state =
        some ⟨false, now, none⟩) := by
  refine ⟨?_, ?_, ?_⟩
  · intro m r hm
    rcases h : List.lookup n d.state with _ | cur
    · rw [update_state_new d n v now h] at hm
      dsimp only at hm
      by_cases hmn : m = n
      · subst hmn
        rw [lookup_dictSet_self] at hm
        cases hm
        cases v <;> simp
      · rw [lookup_dictSet_ne _ _ hmn] at hm
        exact hInv m r hm
    · by_cases hchg : cur.online = v
      · rw [update_state_same d n v now cur h hchg] at hm
        exact hInv m r hm
      · rw [update_state_change d n v now cur h hchg] at hm
        dsimp only at hm
        by_cases hmn : m = n
        · subst hmn
          rw [lookup_dictSet_self] at hm
          cases hm
          cases v <;> simp
        · rw [lookup_dictSet_ne _ _ hmn] at hm
          exact hInv m r hm
  · intro r hr hoff hv
    subst hv
    have hdiff : r.online ≠ true := by rw [hoff]; exact Bool.false_ne_true
    rw [update_state_change d n true now r hr hdiff]
    dsimp only
    simpa using lookup_dictSet_self n _ d.state
  · intro r hr hon hv
    subst hv
    have hdiff : r.online ≠ false := by rw [hon]; simp
    rw [update_state_change d n false now r hr hdiff]
    dsimp only
    simpa using lookup_dictSet_self n _ d.state

theorem liveness_uptime_invariant_witness :
    LivenessInv (⟨[], [], [("s", ⟨false, 0, none⟩)], 0⟩ : ConfigData) ∧
    (LivenessInv (update_server_state
        (⟨[], [], [("s", ⟨false, 0, none⟩)], 0⟩ : ConfigData) "s" true 7).1 ∧
      (∀ r, List.lookup "s"
            (⟨[], [], [("s", ⟨false, 0, none⟩)], 0⟩ : ConfigData).state = some r →
          r.online = false → true = true →
          List.lookup "s" (update_server_state
              (⟨[], [], [("s", ⟨false, 0, none⟩)], 0⟩ : ConfigData) "s" true 7).1.state =
            some ⟨true, 7, some 7⟩) ∧
      (∀ r, List.lookup "s"
            (⟨[], [], [("s", ⟨false, 0, none⟩)], 0⟩ : ConfigData).state = some r →
          r.online = true → true = false →
          List.lookup "s" (update_server_state
              (⟨[], [], [("s", ⟨false, 0, none⟩)], 0⟩ : ConfigData) "s" true 7).1.state =
            some ⟨false, 7, none⟩)) := by
  have hInv : LivenessInv (⟨[], [], [("s", ⟨false, 0, none⟩)], 0⟩ : ConfigData) := by
    intro m r hm
    by_cases hms : m = "s"
    · subst hms
      have hl : List.lookup "s"
          (⟨[], [], [("s", ⟨false, 0, none⟩)], 0⟩ : ConfigData).state =
          some ⟨false, 0, none⟩ := rfl
      rw [hl] at hm
      cases hm
      rfl
    · have hl : List.lookup m
          (⟨[], [], [("s", ⟨false, 0, none⟩)], 0⟩ : ConfigData).state = none := by
        have hbeq : (m == "s") = false := beq_eq_false_iff_ne.mpr hms
        simp [List.lookup, hbeq]
      rw [hl] at hm
      cases hm
  exact ⟨hInv, liveness_uptime_invariant _ "s" true 7 hInv⟩

/-- Claim C10: `add_server` followed by `get_server` returns exactly the
record just added (mac defaulting to the empty string), fully replacing any
prior record under that name, and `remove_server` followed by `get_server`
finds nothing. -/
theorem server_roundtrip (d : ConfigData) (n h p : String) (m : Option String) :
    get_server (add_server d n h m (some p)) n = some ⟨h, m.getD "", some p⟩ ∧
    get_server ((remove_server (add_server d n h m (some p)) n).1) n = none := by
  have hget : get_server (add_server d n h m (some p)) n =
      some ⟨h, m.getD "", some p⟩ := by
    unfold get_server add_server
    exact lookup_dictSet_self n _ d.servers
  refine ⟨hget, ?_⟩
  unfold remove_server
  rw [show List.lookup n (add_server d n h m (some p)).servers =
      some ⟨h, m.getD "", some p⟩ from hget]
  simp only [get_server]
  exact lookup_dictRemove_self n _

/-- Claim C8: removing a plug referenced by a server leaves the server
record in place, and a subsequent `/power/on` request for that server
answers a structured error — a not-found once the (non-empty) plug name no
longer resolves — rather than crashing. -/
theorem dangling_plug_reference (d : ConfigData) (sname pname : String)
    (server : ServerRec) (hs : get_server d sname = some server)
    (hp : server.plug = some pname) :
    get_server ((remove_plug d pname).1) sname = some server ∧
    (∃ e, power_on_server ((remove_plug d pname).1) sname = Except.error e) ∧
    (pname ≠ "" → server.mac ≠ "" →
      power_on_server ((remove_plug d pname).1) sname =
        Except.error (ApiError.notFound ("Plug " ++ pname ++ " not found"))) := by
  have hserv : get_server ((remove_plug d pname).1) sname = some server := by
    unfold remove_plug
    cases hpl : List.lookup pname d.plugs <;> simpa [get_server] using hs
  have hplug : get_plug ((remove_plug d pname).1) pname = none := by
    unfold remove_plug get_plug
    cases hpl : List.lookup pname d.plugs
    · simpa using hpl
    · simp only
      exact lookup_dictRemove_self pname _
  have hrun : ∀ q, power_on_server ((remove_plug d pname).1) sname ≠ Except.ok q := by
    intro q hq
    rw [power_on_server, hserv] at hq
    dsimp only at hq
    rw [hp] at hq
    dsimp only at hq
    by_cases hpn : pname = ""
    · rw [if_pos hpn] at hq
      cases hq
    · rw [if_neg hpn] at hq
      by_cases hmac : server.mac = ""
      · rw [if_pos hmac] at hq
        cases hq
      · rw [if_neg hmac, hplug] at hq
        cases hq
  refine ⟨hserv, ?_, ?_⟩
  · cases hres : power_on_server ((remove_plug d pname).1) sname with
    | ok q => exact absurd hres (hrun q)
    | error e => exact ⟨e, rfl⟩
  · intro hpn hmac
    rw [power_on_server, hserv]
    dsimp only
    rw [hp]
    dsimp only
    rw [if_neg hpn, if_neg hmac, hplug]

theorem dangling_plug_reference_witness :
    (get_server (⟨[("p", ⟨"10.0.0.9"⟩)],
        [("s", ⟨"h.local", "AA:BB:CC:DD:EE:FF", some "p"⟩)], [], 0⟩ : ConfigData)
        "s" = some ⟨"h.local", "AA:BB:CC:DD:EE:FF", some "p"⟩) ∧
    ((⟨"h.local", "AA:BB:CC:DD:EE:FF", some "p"⟩ : ServerRec).plug = some "p") ∧
    (get_server ((remove_plug (⟨[("p", ⟨"10.0.0.9"⟩)],
          [("s", ⟨"h.local", "AA:BB:CC:DD:EE:FF", some "p"⟩)], [], 0⟩ : ConfigData)
          "p").1) "s" = some ⟨"h.local", "AA:BB:CC:DD:EE:FF", some "p"⟩ ∧
      (∃ e, power_on_server ((remove_plug (⟨[("p", ⟨"10.0.0.9"⟩)],
          [("s", ⟨"h.local", "AA:BB:CC:DD:EE:FF", some "p"⟩)], [], 0⟩ : ConfigData)
          "p").1) "s" = Except.error e) ∧
      ("p" ≠ "" → (⟨"h.local", "AA:BB:CC:DD:EE:FF", some "p"⟩ : ServerRec).mac ≠ "" →
        power_on_server ((remove_plug (⟨[("p", ⟨"10.0.0.9"⟩)],
            [("s", ⟨"h.local", "AA:BB:CC:DD:EE:FF", some "p"⟩)], [], 0⟩ : ConfigData)
            "p").1) "s" =
          Except.error (ApiError.notFound ("Plug " ++ "p" ++ " not found")))) :=
  ⟨by decide, rfl,
    dangling_plug_reference _ "s" "p" ⟨"h.local", "AA:BB:CC:DD:EE:FF", some "p"⟩
      (by decide) rfl⟩

/-! ## Power-on state machine lemmas -/

/-- The boot wait succeeds exactly when some ping within its tick budget
answers true. -/
theorem monitor_boot_iff (ping : Nat → Bool) (powAt : Nat → Except String Rat)
    (fuel : Nat) : ∀ k, (monitor_boot ping powAt k fuel).1 = true ↔
      ∃ i, i < fuel ∧ ping (k + i) = true := by
  induction fuel with
  | zero => intro k; simp [monitor_boot]
  | succ n ih =>
      intro k
      by_cases hp : ping k = true
      · constructor
        · intro _
          exact ⟨0, Nat.succ_pos n, by simpa using hp⟩
        · intro _
          simp [monitor_boot, hp]
      · have hstep : (monitor_boot ping powAt k (n + 1)).1 =
            (monitor_boot ping powAt (k + 1) n).1 := by
          cases hpw : powAt k <;> simp [monitor_boot, hp, hpw]
        rw [hstep, ih (k + 1)]
        constructor
        · rintro ⟨i, hi, hping⟩
          refine ⟨i + 1, by omega, ?_⟩
          rw [show k + (i + 1) = k + 1 + i by omega]
          exact hping
        · rintro ⟨i, hi, hping⟩
          cases i with
          | zero => exact absurd (by simpa using hping) hp
          | succ j =>
              refine ⟨j, by omega, ?_⟩
              rw [show k + 1 + j = k + (j + 1) by omega]
              exact hping

/-- If no ping ever answers, every boot wait fails. -/
theorem monitor_boot_false (ping : Nat → Bool) (powAt : Nat → Except String Rat)
    (hping : ∀ i, ping i = false) (k fuel : Nat) :
    (monitor_boot ping powAt k fuel).1 = false := by
  cases h : (monitor_boot ping powAt k fuel).1
  · rfl
  · obtain ⟨i, _, hp⟩ := (monitor_boot_iff ping powAt fuel k).mp h
    rw [hping (k + i)] at hp
    simp at hp

/-- `power_on` when the first wait sees a ping. -/
theorem power_on_case_ping1 (c : PowerCaps) (fuel1 fuel2 : Nat)
    (hOn : c.turnOnR = Except.ok ())
    (hm1 : (monitor_boot c.ping c.powAt 0 fuel1).1 = true) :
    power_on c fuel1 fuel2 =
      ([Event.turnOn],
        Except.ok ⟨true, "Server powered on successfully",
          ["Turning on plug...", "Plug turned on", "Monitoring server boot (60s)..."]
            ++ (monitor_boot c.ping c.powAt 0 fuel1).2 ++ ["Server is online!"]⟩) := by
  simp [power_on, hOn, hm1]

/-- `power_on` when the first wait expires but the sampled draw is at or
above the threshold: the code falls through to a success result without
any ping ever having succeeded. -/
theorem power_on_case_highpower (c : PowerCaps) (fuel1 fuel2 : Nat) (v : Rat)
    (hOn : c.turnOnR = Except.ok ())
    (hm1 : (monitor_boot c.ping c.powAt 0 fuel1).1 = false)
    (hChk : c.powCheck = Except.ok v) (hv : ¬ v < lowPowerThreshold) :
    power_on c fuel1 fuel2 =
      ([Event.turnOn],
        Except.ok ⟨true, "Server powered on successfully",
          ["Turning on plug...", "Plug turned on", "Monitoring server boot (60s)..."]
            ++ (monitor_boot c.ping c.powAt 0 fuel1).2
            ++ ["Server not responding (power: " ++ toString v ++ "W)",
                "Server is online!"]⟩) := by
  simp [power_on, hOn, hm1, hChk, hv]

/-- `power_on` when WOL is sent and the second wait sees a ping. -/
theorem power_on_case_wol_success (c : PowerCaps) (fuel1 fuel2 : Nat) (v : Rat)
    (hOn : c.turnOnR = Except.ok ())
    (hm1 : (monitor_boot c.ping c.powAt 0 fuel1).1 = false)
    (hChk : c.powCheck = Except.ok v) (hv : v < lowPowerThreshold)
    (hWol : c.wolR = Except.ok ())
    (hm2 : (monitor_boot c.ping c.powAt fuel1 fuel2).1 = true) :
    power_on c fuel1 fuel2 =
      ([Event.turnOn, Event.wol],
        Except.ok ⟨true, "Server powered on successfully",
          ["Turning on plug...", "Plug turned on", "Monitoring server boot (60s)..."]
            ++ (monitor_boot c.ping c.powAt 0 fuel1).2
            ++ ["Server not responding (power: " ++ toString v ++ "W)",
                "Sending Wake-on-LAN packet...", "Monitoring server boot (60s)..."]
            ++ (monitor_boot c.ping c.powAt fuel1 fuel2).2
            ++ ["Server is online!"]⟩) := by
  simp [power_on, hOn, hm1, hChk, hv, hWol, hm2]

/-- `power_on` when WOL is sent and the second wait also expires: fail
closed. -/
theorem power_on_case_wol_fail (c : PowerCaps) (fuel1 fuel2 : Nat) (v : Rat)
    (hOn : c.turnOnR = Except.ok ())
    (hm1 : (monitor_boot c.ping c.powAt 0 fuel1).1 = false)
    (hChk : c.powCheck = Except.ok v) (hv : v < lowPowerThreshold)
    (hWol : c.wolR = Except.ok ())
    (hm2 : (monitor_boot c.ping c.powAt fuel1 fuel2).1 = false)
    (hOff : c.turnOffR = Except.ok ()) :
    power_on c fuel1 fuel2 =
      ([Event.turnOn, Event.wol, Event.turnOff],
        Except.ok ⟨false, "Server failed to boot",
          ["Turning on plug...", "Plug turned on", "Monitoring server boot (60s)..."]
            ++ (monitor_boot c.ping c.powAt 0 fuel1).2
            ++ ["Server not responding (power: " ++ toString v ++ "W)",
                "Sending Wake-on-LAN packet...", "Monitoring server boot (60s)..."]
            ++ (monitor_boot c.ping c.powAt fuel1 fuel2).2
            ++ ["Server failed to boot", "Turning off plug..."]⟩) := by
  simp [power_on, hOn, hm1, hChk, hv, hWol, hm2, hOff]

/-- `power_off` whenever the final outlet-off call returns normally. -/
theorem power_off_ok (c : PowerCaps) (fuel : Nat)
    (hOff : c.turnOffR = Except.ok ()) :
    power_off c fuel =
      ([Event.turnOff],
        Except.ok ⟨true, "Server powered off successfully",
          ["Sending shutdown command..."]
            ++ (match c.shutdownR with
                | Except.ok _ => ["Shutdown command sent"]
                | Except.error e =>
                    ["Failed to send shutdown: " ++ e,
                     "Continuing with power monitoring..."])
            ++ ["Monitoring server shutdown..."]
            ++ (shutdown_loop c.powAt 0 none fuel).2
            ++ (if (shutdown_loop c.powAt 0 none fuel).1 then []
                else ["Timeout waiting for shutdown"])
            ++ ["Turning off plug...", "Server is offline"]⟩) := by
  simp [power_off, hOff]

/-! ## Claims about the power-on state machine -/

/-- Claim C1 (amended): when the capability calls outside the monitoring
loops return normally, `power_on` yields a structured result whose success
is true exactly when a bounded wait saw a ping succeed, or the first wait
expired with the sampled draw at or above the low-power threshold (the code
falls through to success in that case); only the no-ping, low-power,
second-wait-expired path ends with success=false. -/
theorem power_on_success_iff (c : PowerCaps) (fuel1 fuel2 : Nat) (v : Rat)
    (hOn : c.turnOnR = Except.ok ()) (hChk : c.powCheck = Except.ok v)
    (hWol : c.wolR = Except.ok ()) (hOff : c.turnOffR = Except.ok ()) :
    ∃ r, (power_on c fuel1 fuel2).2 = Except.ok r ∧
      (r.success = true ↔
        ((∃ i, i < fuel1 ∧ c.ping i = true) ∨ lowPowerThreshold ≤ v ∨
          (∃ i, fuel1 ≤ i ∧ i < fuel1 + fuel2 ∧ c.ping i = true))) := by
  cases hm1 : (monitor_boot c.ping c.powAt 0 fuel1).1 with
  | true =>
      rw [power_on_case_ping1 c fuel1 fuel2 hOn hm1]
      refine ⟨_, rfl, ?_⟩
      constructor
      · intro _
        left
        obtain ⟨i, hi, hp⟩ := (monitor_boot_iff c.ping c.powAt fuel1 0).mp hm1
        exact ⟨i, hi, by simpa using hp⟩
      · intro _
        rfl
  | false =>
      have hiff1 := monitor_boot_iff c.ping c.powAt fuel1 0
      rw [hm1] at hiff1
      have hnp1 : ¬ ∃ i, i < fuel1 ∧ c.ping i = true := by
        rintro ⟨i, hi, hp⟩
        exact absurd (hiff1.mpr ⟨i, hi, by simpa using hp⟩) (by simp)
      by_cases hv : v < lowPowerThreshold
      · cases hm2 : (monitor_boot c.ping c.powAt fuel1 fuel2).1 with
        | true =>
            rw [power_on_case_wol_success c fuel1 fuel2 v hOn hm1 hChk hv hWol hm2]
            refine ⟨_, rfl, ?_⟩
            constructor
            · intro _
              right; right
              obtain ⟨i, hi, hp⟩ :=
                (monitor_boot_iff c.ping c.powAt fuel2 fuel1).mp hm2
              exact ⟨fuel1 + i, Nat.le_add_right _ _, by omega, hp⟩
            · intro _
              rfl
        | false =>
            rw [power_on_case_wol_fail c fuel1 fuel2 v hOn hm1 hChk hv hWol hm2 hOff]
            refine ⟨_, rfl, ?_⟩
            have hiff2 := monitor_boot_iff c.ping c.powAt fuel2 fuel1
            rw [hm2] at hiff2
            constructor
            · intro h
              exact Bool.noConfusion h
            · rintro (h1 | h2 | h3)
              · exact absurd h1 hnp1
              · exact absurd h2 (not_le.mpr hv)
              · obtain ⟨i, hi1, hi2, hp⟩ := h3
                have hfalse : false = true := hiff2.mpr
                  ⟨i - fuel1, by omega,
                    by rw [show fuel1 + (i - fuel1) = i by omega]; exact hp⟩
                exact Bool.noConfusion hfalse
      · rw [power_on_case_highpower c fuel1 fuel2 v hOn hm1 hChk hv]
        refine ⟨_, rfl, ?_⟩
        constructor
        · intro _
          exact Or.inr (Or.inl (le_of_not_lt hv))
        · intro _
          rfl

/-- A capability environment where every call succeeds, no ping ever
answers and every power reading is 10 W (above the threshold). -/
def noPingHighPowerCaps : PowerCaps :=
  ⟨Except.ok (), Except.ok (), Except.ok (), Except.ok (),
    fun _ => false, fun _ => Except.ok 10, Except.ok 10⟩

/-- A capability environment where every call succeeds, no ping ever
answers and every power reading is 0 W (below the threshold). -/
def noPingLowPowerCaps : PowerCaps :=
  ⟨Except.ok (), Except.ok (), Except.ok (), Except.ok (),
    fun _ => false, fun _ => Except.ok 0, Except.ok 0⟩

/-- The success flag of an operation's terminal result, if one exists. -/
def resultSuccess (x : List Event × Except String OpResult) : Option Bool :=
  match x.2 with
  | Except.ok r => some r.success
  | Except.error _ => none

theorem power_on_success_iff_witness :
    (noPingHighPowerCaps.turnOnR = Except.ok ()) ∧
    (noPingHighPowerCaps.powCheck = Except.ok 10) ∧
    (noPingHighPowerCaps.wolR = Except.ok ()) ∧
    (noPingHighPowerCaps.turnOffR = Except.ok ()) ∧
    (∃ r, (power_on noPingHighPowerCaps 2 2).2 = Except.ok r ∧
      (r.success = true ↔
        ((∃ i, i < 2 ∧ noPingHighPowerCaps.ping i = true) ∨
          lowPowerThreshold ≤ 10 ∨
          (∃ i, 2 ≤ i ∧ i < 2 + 2 ∧ noPingHighPowerCaps.ping i = true)))) :=
  ⟨rfl, rfl, rfl, rfl,
    power_on_success_iff noPingHighPowerCaps 2 2 10 rfl rfl rfl rfl⟩

/-- Counterexample to claim C1 as stated: with no ping ever succeeding and
the post-wait sample at 10 W (at or above the threshold), the first wait
fails yet `power_on` terminates with success=true. -/
theorem power_on_no_ping_success_cex :
    (monitor_boot noPingHighPowerCaps.ping noPingHighPowerCaps.powAt 0 30).1
      = false ∧
    resultSuccess (power_on noPingHighPowerCaps 30 30) = some true := by
  constructor
  · rfl
  · rfl

/-- Claim C7: with every ping false and the post-wait draw below the
threshold, `power_on` sends exactly one WOL packet, and when the second
wait also expires it turns the outlet off and returns success=false with
message "Server failed to boot". -/
theorem power_on_wol_fallback (c : PowerCaps) (fuel1 fuel2 : Nat) (v : Rat)
    (hping : ∀ i, c.ping i = false)
    (hOn : c.turnOnR = Except.ok ()) (hChk : c.powCheck = Except.ok v)
    (hv : v < lowPowerThreshold) (hWol : c.wolR = Except.ok ())
    (hOff : c.turnOffR = Except.ok ()) :
    (power_on c fuel1 fuel2).1 = [Event.turnOn, Event.wol, Event.turnOff] ∧
    ∃ r, (power_on c fuel1 fuel2).2 = Except.ok r ∧ r.success = false ∧
      r.message = "Server failed to boot" := by
  have hm1 : (monitor_boot c.ping c.powAt 0 fuel1).1 = false :=
    monitor_boot_false c.ping c.powAt hping 0 fuel1
  have hm2 : (monitor_boot c.ping c.powAt fuel1 fuel2).1 = false :=
    monitor_boot_false c.ping c.powAt hping fuel1 fuel2
  rw [power_on_case_wol_fail c fuel1 fuel2 v hOn hm1 hChk hv hWol hm2 hOff]
  exact ⟨rfl, _, rfl, rfl, rfl⟩

theorem power_on_wol_fallback_witness :
    (∀ i, noPingLowPowerCaps.ping i = false) ∧
    (noPingLowPowerCaps.turnOnR = Except.ok ()) ∧
    (noPingLowPowerCaps.powCheck = Except.ok 0) ∧
    ((0 : Rat) < lowPowerThreshold) ∧
    (noPingLowPowerCaps.wolR = Except.ok ()) ∧
    (noPingLowPowerCaps.turnOffR = Except.ok ()) ∧
    ((power_on noPingLowPowerCaps 2 2).1 =
        [Event.turnOn, Event.wol, Event.turnOff] ∧
      ∃ r, (power_on noPingLowPowerCaps 2 2).2 = Except.ok r ∧
        r.success = false ∧ r.message = "Server failed to boot") :=
  ⟨fun _ => rfl, rfl, rfl, by decide, rfl, rfl,
    power_on_wol_fallback noPingLowPowerCaps 2 2 0 (fun _ => rfl) rfl rfl
      (by decide) rfl rfl⟩

/-- Claim C3 (amended): failures inside the monitoring loops (power reads)
and of the graceful-shutdown command are absorbed, so with the unguarded
calls (`turn_on`, the post-wait power sample, WOL, `turn_off`) returning
normally both operations always produce a structured result — but a failure
of an unguarded call propagates as an exception out of the service (see the
counterexample), to be caught by the HTTP layer. -/
theorem power_ops_structured (c : PowerCaps) (fuel1 fuel2 fuel : Nat) (v : Rat)
    (hOn : c.turnOnR = Except.ok ()) (hChk : c.powCheck = Except.ok v)
    (hWol : c.wolR = Except.ok ()) (hOff : c.turnOffR = Except.ok ()) :
    (∃ r, (power_on c fuel1 fuel2).2 = Except.ok r) ∧
    (∃ r, (power_off c fuel).2 = Except.ok r ∧ r.success = true ∧
      r.message = "Server powered off successfully") := by
  constructor
  · cases hm1 : (monitor_boot c.ping c.powAt 0 fuel1).1 with
    | true =>
        rw [power_on_case_ping1 c fuel1 fuel2 hOn hm1]
        exact ⟨_, rfl⟩
    | false =>
        by_cases hv : v < lowPowerThreshold
        · cases hm2 : (monitor_boot c.ping c.powAt fuel1 fuel2).1 with
          | true =>
              rw [power_on_case_wol_success c fuel1 fuel2 v hOn hm1 hChk hv hWol hm2]
              exact ⟨_, rfl⟩
          | false =>
              rw [power_on_case_wol_fail c fuel1 fuel2 v hOn hm1 hChk hv hWol hm2 hOff]
              exact ⟨_, rfl⟩
        · rw [power_on_case_highpower c fuel1 fuel2 v hOn hm1 hChk hv]
          exact ⟨_, rfl⟩
  · rw [power_off_ok c fuel hOff]
    exact ⟨_, rfl, rfl, rfl⟩

theorem power_ops_structured_witness :
    (noPingLowPowerCaps.turnOnR = Except.ok ()) ∧
    (noPingLowPowerCaps.powCheck = Except.ok 0) ∧
    (noPingLowPowerCaps.wolR = Except.ok ()) ∧
    (noPingLowPowerCaps.turnOffR = Except.ok ()) ∧
    ((∃ r, (power_on noPingLowPowerCaps 2 2).2 = Except.ok r) ∧
      (∃ r, (power_off noPingLowPowerCaps 3).2 = Except.ok r ∧
        r.success = true ∧ r.message = "Server powered off successfully")) :=
  ⟨rfl, rfl, rfl, rfl,
    power_ops_structured noPingLowPowerCaps 2 2 3 0 rfl rfl rfl rfl⟩

/-- A capability environment whose `turn_on` call fails. -/
def turnOnFailCaps : PowerCaps :=
  { noPingHighPowerCaps with turnOnR := Except.error "plug unreachable" }

/-- Counterexample to claim C3 as stated: a failing `turn_on` makes
`power_on` terminate with a propagated exception instead of a structured
result. -/
theorem power_on_exception_cex :
    (power_on turnOnFailCaps 1 1).2 = Except.error "plug unreachable" := rfl

/-! ## Power-off loop characterization

For a trace `f` of successful power readings, `lowSinceF f i` is the value
the loop's `timestamp_low_power` mark holds when tick `i` begins: the start
of the current run of below-threshold samples, cleared by any sample at or
above the threshold. -/

def lowSinceF (f : Nat → Rat) : Nat → Option Nat
  | 0 => none
  | i + 1 =>
      if f i < lowPowerThreshold then some ((lowSinceF f i).getD i) else none

/-- The loop breaks at tick `t` iff the sample is below threshold and
strictly more than 10 s have passed since the run began. -/
def breakCond (f : Nat → Rat) (t : Nat) : Prop :=
  f t < lowPowerThreshold ∧ 2 * t - 2 * ((lowSinceF f t).getD t) > 10

theorem lowSinceF_getD_le (f : Nat → Rat) :
    ∀ i, (lowSinceF f i).getD i ≤ i := by
  intro i
  induction i with
  | zero => simp [lowSinceF]
  | succ n ih =>
      by_cases h : f n < lowPowerThreshold
      · simp only [lowSinceF, if_pos h, Option.getD_some]
        exact le_trans ih (Nat.le_succ n)
      · simp [lowSinceF, h]

theorem lowSinceF_run (f : Nat → Rat) :
    ∀ i j, lowSinceF f i = some j →
      j < i ∧ ∀ k, j ≤ k → k < i → f k < lowPowerThreshold := by
  intro i
  induction i with
  | zero => intro j h; simp [lowSinceF] at h
  | succ n ih =>
      intro j h
      by_cases hf : f n < lowPowerThreshold
      · rw [lowSinceF, if_pos hf] at h
        injection h with h
        cases hl : lowSinceF f n with
        | none =>
            rw [hl] at h
            simp only [Option.getD_none] at h
            subst h
            refine ⟨Nat.lt_succ_self n, ?_⟩
            intro k hk1 hk2
            have : k = n := by omega
            rw [this]
            exact hf
        | some j0 =>
            rw [hl] at h
            simp only [Option.getD_some] at h
            subst h
            obtain ⟨hj0, hrun⟩ := ih j0 hl
            refine ⟨by omega, ?_⟩
            intro k hk1 hk2
            by_cases hkn : k = n
            · rw [hkn]; exact hf
            · exact hrun k hk1 (by omega)
      · rw [lowSinceF, if_neg hf] at h
        cases h

theorem lowSinceF_getD_min (f : Nat → Rat) :
    ∀ i j, j ≤ i → (∀ k, j ≤ k → k < i → f k < lowPowerThreshold) →
      (lowSinceF f i).getD i ≤ j := by
  intro i
  induction i with
  | zero =>
      intro j hj _
      simp only [lowSinceF, Option.getD_none]
      exact Nat.zero_le j
  | succ n ih =>
      intro j hj hrun
      by_cases hjn : j = n + 1
      · rw [hjn]
        exact lowSinceF_getD_le f (n + 1)
      · have hji : j ≤ n := by omega
        have hfn : f n < lowPowerThreshold := hrun n hji (Nat.lt_succ_self n)
        simp only [lowSinceF, if_pos hfn, Option.getD_some]
        exact ih j hji (fun k hk1 hk2 => hrun k hk1 (by omega))

/-- The loop, started at tick `i` with the canonical mark, breaks early
exactly when some tick within fuel satisfies `breakCond`. -/
theorem shutdown_loop_spec (powAt : Nat → Except String Rat) (f : Nat → Rat)
    (hpow : ∀ k, powAt k = Except.ok (f k)) :
    ∀ fuel i, (shutdown_loop powAt i (lowSinceF f i) fuel).1 = true ↔
      ∃ t, i ≤ t ∧ t < i + fuel ∧ breakCond f t := by
  intro fuel
  induction fuel with
  | zero =>
      intro i
      constructor
      · intro h
        exact Bool.noConfusion h
      · rintro ⟨t, h1, h2, _⟩
        exact absurd h2 (by omega)
  | succ n ih =>
      intro i
      by_cases hf : f i < lowPowerThreshold
      · by_cases hbr : 2 * i - 2 * ((lowSinceF f i).getD i) > 10
        · have hstep : (shutdown_loop powAt i (lowSinceF f i) (n + 1)).1 = true := by
            simp [shutdown_loop, hpow i, hf, hbr]
          rw [hstep]
          constructor
          · intro _
            exact ⟨i, le_refl i, by omega, hf, hbr⟩
          · intro _
            rfl
        · have hnext : lowSinceF f (i + 1) = some ((lowSinceF f i).getD i) := by
            simp [lowSinceF, hf]
          have hstep : (shutdown_loop powAt i (lowSinceF f i) (n + 1)).1 =
              (shutdown_loop powAt (i + 1) (lowSinceF f (i + 1)) n).1 := by
            rw [hnext]
            simp [shutdown_loop, hpow i, hf, hbr]
          rw [hstep, ih (i + 1)]
          constructor
          · rintro ⟨t, h1, h2, hb⟩
            exact ⟨t, by omega, by omega, hb⟩
          · rintro ⟨t, h1, h2, hb⟩
            by_cases hti : t = i
            · subst hti
              exact absurd hb.2 hbr
            · exact ⟨t, by omega, by omega, hb⟩
      · have hnext : lowSinceF f (i + 1) = none := by
          simp [lowSinceF, hf]
        have hstep : (shutdown_loop powAt i (lowSinceF f i) (n + 1)).1 =
            (shutdown_loop powAt (i + 1) (lowSinceF f (i + 1)) n).1 := by
          rw [hnext]
          simp [shutdown_loop, hpow i, hf]
        rw [hstep, ih (i + 1)]
        constructor
        · rintro ⟨t, h1, h2, hb⟩
          exact ⟨t, by omega, by omega, hb⟩
        · rintro ⟨t, h1, h2, hb⟩
          by_cases hti : t = i
          · subst hti
            exact absurd hb.1 hf
          · exact ⟨t, by omega, by omega, hb⟩

/-- The spec-side early-exit condition: some sample run stays below the
low-power threshold continuously and spans strictly more than 10 seconds
(ticks are 2 s apart). -/
def belowRun (f : Nat → Rat) (fuel : Nat) : Prop :=
  ∃ i j, j ≤ i ∧ i < fuel ∧
    (∀ k, j ≤ k → k ≤ i → f k < lowPowerThreshold) ∧ 2 * i - 2 * j > 10

/-- Claim C5 (amended): when the power reads succeed with trace `f` and the
final outlet-off call returns normally, `power_off` always turns the outlet
off and returns success=true, and its monitoring loop exits before the
timeout exactly when some continuous below-threshold run of samples spans
strictly more than 10 seconds (a sample at or above the threshold resets
the run). -/
theorem power_off_spec (c : PowerCaps) (fuel : Nat) (f : Nat → Rat)
    (hpow : ∀ k, c.powAt k = Except.ok (f k))
    (hOff : c.turnOffR = Except.ok ()) :
    (power_off c fuel).1 = [Event.turnOff] ∧
    (∃ r, (power_off c fuel).2 = Except.ok r ∧ r.success = true) ∧
    ((shutdown_loop c.powAt 0 none fuel).1 = true ↔ belowRun f fuel) := by
  refine ⟨?_, ?_, ?_⟩
  · rw [power_off_ok c fuel hOff]
  · rw [power_off_ok c fuel hOff]
    exact ⟨_, rfl, rfl⟩
  · constructor
    · intro h
      obtain ⟨t, _, ht, hft, hbr⟩ :=
        (shutdown_loop_spec c.powAt f hpow fuel 0).mp h
      cases hl : lowSinceF f t with
      | none =>
          rw [hl] at hbr
          simp only [Option.getD_none] at hbr
          exact absurd hbr (by omega)
      | some j0 =>
          obtain ⟨hj0t, hrun⟩ := lowSinceF_run f t j0 hl
          rw [hl] at hbr
          simp only [Option.getD_some] at hbr
          refine ⟨t, j0, le_of_lt hj0t, by omega, ?_, hbr⟩
          intro k hk1 hk2
          by_cases hkt : k = t
          · rw [hkt]
            exact hft
          · exact hrun k hk1 (by omega)
    · rintro ⟨i, j, hji, hifuel, hrun, hgap⟩
      apply (shutdown_loop_spec c.powAt f hpow fuel 0).mpr
      have hmin : (lowSinceF f i).getD i ≤ j :=
        lowSinceF_getD_min f i j hji (fun k h1 h2 => hrun k h1 (le_of_lt h2))
      exact ⟨i, Nat.zero_le i, by omega, hrun i hji (le_refl i), by omega⟩

theorem power_off_spec_witness :
    (∀ k, noPingLowPowerCaps.powAt k = Except.ok ((fun _ => (0 : Rat)) k)) ∧
    (noPingLowPowerCaps.turnOffR = Except.ok ()) ∧
    ((power_off noPingLowPowerCaps 60).1 = [Event.turnOff] ∧
      (∃ r, (power_off noPingLowPowerCaps 60).2 = Except.ok r ∧
        r.success = true) ∧
      ((shutdown_loop noPingLowPowerCaps.powAt 0 none 60).1 = true ↔
        belowRun (fun _ => (0 : Rat)) 60)) :=
  ⟨fun _ => rfl, rfl,
    power_off_spec noPingLowPowerCaps 60 (fun _ => (0 : Rat))
      (fun _ => rfl) rfl⟩

/-- A power trace that stays below the threshold for the samples at ticks
0..5 (spanning exactly 10 seconds) and is high afterwards. -/
def dipPow : Nat → Except String Rat :=
  fun k => if k ≤ 5 then Except.ok 0 else Except.ok 100

/-- Counterexample to claim C5 as stated: the samples at ticks 0..5 stay
below the threshold continuously for at least 10 seconds (2*5 - 2*0 = 10),
yet the loop never exits early over the whole 120 s budget, because the
code requires strictly more than 10 seconds. -/
theorem power_off_early_exit_cex :
    dipPow 0 = Except.ok 0 ∧ dipPow 1 = Except.ok 0 ∧ dipPow 2 = Except.ok 0 ∧
    dipPow 3 = Except.ok 0 ∧ dipPow 4 = Except.ok 0 ∧ dipPow 5 = Except.ok 0 ∧
    (0 : Rat) < lowPowerThreshold ∧ 2 * 5 - 2 * 0 ≥ 10 ∧
    (shutdown_loop dipPow 0 none 60).1 = false := by
  refine ⟨rfl, rfl, rfl, rfl, rfl, rfl, by decide, by decide, ?_⟩
  decide

/-! ## Claims about the status aggregation -/

/-- Rounding fixes zero. -/
theorem roundTo_zero (d : Nat) : roundTo d 0 = 0 := by
  unfold roundTo roundHalfEven
  norm_num

/-- Claim C2 (amended): Outlet fetch failures are absorbed inside
`get_full_status`, which returns a default offline-shaped record instead of
raising; `get_plug_status` therefore reports every configured plug with
`online := true` and no error field — on a failed device fetch the entry
merely shows state "off" with zero telemetry.  The claimed
`online := false` + captured-error shape is unreachable for Outlet
failures. -/
theorem plug_status_absorbs_fetch_errors (d : ConfigData) (n ip : String)
    (o : FetchOracle) (msg : String) :
    (get_plug_status d n ip o).online = true ∧
    (get_plug_status d n ip o).error = none ∧
    (o.fullInfo = Except.error msg →
      (get_plug_status d n ip o).state = "off" ∧
      (get_plug_status d n ip o).current_power = 0 ∧
      (get_plug_status d n ip o).today_energy = 0 ∧
      (get_plug_status d n ip o).month_energy = 0) := by
  refine ⟨rfl, rfl, fun he => ?_⟩
  have hfs : get_full_status o = ⟨false, 0, 0, 0, 0, 0, 0⟩ := by
    simp [get_full_status, he]
  have h0 : roundTo 1 (0 : Rat) = 0 := roundTo_zero 1
  refine ⟨?_, ?_, ?_, ?_⟩ <;> simp [get_plug_status, hfs, h0]

/-- A fetch oracle whose device-info fetch fails. -/
def failFetch : FetchOracle :=
  ⟨Except.error "device unreachable", Except.ok (), Except.ok 0,
    Except.ok ⟨0, 0, 0, 0⟩⟩

theorem plug_status_absorbs_fetch_errors_witness :
    (get_plug_status ⟨[], [], [], 0⟩ "p" "1.2.3.4" failFetch).online = true ∧
    (get_plug_status ⟨[], [], [], 0⟩ "p" "1.2.3.4" failFetch).error = none ∧
    (failFetch.fullInfo = Except.error "device unreachable" →
      (get_plug_status ⟨[], [], [], 0⟩ "p" "1.2.3.4" failFetch).state = "off" ∧
      (get_plug_status ⟨[], [], [], 0⟩ "p" "1.2.3.4" failFetch).current_power = 0 ∧
      (get_plug_status ⟨[], [], [], 0⟩ "p" "1.2.3.4" failFetch).today_energy = 0 ∧
      (get_plug_status ⟨[], [], [], 0⟩ "p" "1.2.3.4" failFetch).month_energy = 0) :=
  plug_status_absorbs_fetch_errors ⟨[], [], [], 0⟩ "p" "1.2.3.4" failFetch
    "device unreachable"

/-- Counterexample to claim C2 as stated: with the Outlet fetch failing,
the snapshot entry still carries `online = true` and no captured error. -/
theorem plug_fetch_error_online_cex :
    failFetch.fullInfo = Except.error "device unreachable" ∧
    (get_plug_status ⟨[], [], [], 0⟩ "p" "1.2.3.4" failFetch).online = true ∧
    (get_plug_status ⟨[], [], [], 0⟩ "p" "1.2.3.4" failFetch).error = none :=
  ⟨rfl, rfl, rfl⟩

/-- Claim C9 (amended): the cost fields are the 4-decimal
(half-to-even-rounded) values of `(Wh/1000)·price` for today/month energy
and `(W/1000)·price` for current power, and are all 0 when the price is
unset (0). -/
theorem plug_cost_fields (d : ConfigData) (n ip : String) (o : FetchOracle) :
    ((get_plug_status d n ip o).today_cost =
      if get_electricity_price d > 0 then
        roundTo 4 ((get_full_status o).today_energy / 1000 *
          get_electricity_price d)
      else 0) ∧
    ((get_plug_status d n ip o).month_cost =
      if get_electricity_price d > 0 then
        roundTo 4 ((get_full_status o).month_energy / 1000 *
          get_electricity_price d)
      else 0) ∧
    ((get_plug_status d n ip o).current_cost_per_hour =
      if get_electricity_price d > 0 then
        roundTo 4 ((get_full_status o).current_power / 1000 *
          get_electricity_price d)
      else 0) ∧
    (get_electricity_price d = 0 →
      (get_plug_status d n ip o).today_cost = 0 ∧
      (get_plug_status d n ip o).month_cost = 0 ∧
      (get_plug_status d n ip o).current_cost_per_hour = 0) := by
  have h40 : roundTo 4 (0 : Rat) = 0 := roundTo_zero 4
  by_cases hp : get_electricity_price d > 0
  · refine ⟨?_, ?_, ?_, ?_⟩
    · simp [get_plug_status, hp]
    · simp [get_plug_status, hp]
    · simp [get_plug_status, hp]
    · intro h0
      rw [h0] at hp
      exact absurd hp (lt_irrefl 0)
  · refine ⟨?_, ?_, ?_, ?_⟩
    · simp [get_plug_status, hp, h40]
    · simp [get_plug_status, hp, h40]
    · simp [get_plug_status, hp, h40]
    · intro _
      refine ⟨?_, ?_, ?_⟩ <;> simp [get_plug_status, hp, h40]

/-- A fetch oracle delivering 400 Wh today at 50 W. -/
def okEnergyFetch : FetchOracle :=
  ⟨Except.ok ⟨true, 3⟩, Except.ok (), Except.ok 50,
    Except.ok ⟨120, 400, 3600, 15000⟩⟩

theorem plug_cost_fields_witness :
    (((get_plug_status ⟨[], [], [], 1/4⟩ "p" "ip" okEnergyFetch).today_cost =
      if get_electricity_price ⟨[], [], [], 1/4⟩ > 0 then
        roundTo 4 ((get_full_status okEnergyFetch).today_energy / 1000 *
          get_electricity_price ⟨[], [], [], 1/4⟩)
      else 0) ∧
    ((get_plug_status ⟨[], [], [], 1/4⟩ "p" "ip" okEnergyFetch).month_cost =
      if get_electricity_price ⟨[], [], [], 1/4⟩ > 0 then
        roundTo 4 ((get_full_status okEnergyFetch).month_energy / 1000 *
          get_electricity_price ⟨[], [], [], 1/4⟩)
      else 0) ∧
    ((get_plug_status ⟨[], [], [], 1/4⟩ "p" "ip" okEnergyFetch).current_cost_per_hour =
      if get_electricity_price ⟨[], [], [], 1/4⟩ > 0 then
        roundTo 4 ((get_full_status okEnergyFetch).current_power / 1000 *
          get_electricity_price ⟨[], [], [], 1/4⟩)
      else 0) ∧
    (get_electricity_price ⟨[], [], [], 1/4⟩ = 0 →
      (get_plug_status ⟨[], [], [], 1/4⟩ "p" "ip" okEnergyFetch).today_cost = 0 ∧
      (get_plug_status ⟨[], [], [], 1/4⟩ "p" "ip" okEnergyFetch).month_cost = 0 ∧
      (get_plug_status ⟨[], [], [], 1/4⟩ "p" "ip" okEnergyFetch).current_cost_per_hour
        = 0)) ∧
    (get_plug_status ⟨[], [], [], 1/4⟩ "p" "ip" okEnergyFetch).today_cost = 1/10 := by
  refine ⟨plug_cost_fields ⟨[], [], [], 1/4⟩ "p" "ip" okEnergyFetch, ?_⟩
  have hmain := (plug_cost_fields ⟨[], [], [], 1/4⟩ "p" "ip" okEnergyFetch).1
  have hpr : get_electricity_price (⟨[], [], [], 1/4⟩ : ConfigData) = 1/4 := rfl
  have hp : get_electricity_price (⟨[], [], [], 1/4⟩ : ConfigData) > 0 := by
    rw [hpr]
    norm_num
  have he : (get_full_status okEnergyFetch).today_energy = 400 := rfl
  rw [hmain, if_pos hp, he, hpr]
  unfold roundTo roundHalfEven
  have harg : ((400 : Rat) / 1000 * (1 / 4)) * 10 ^ 4 = ((1000 : Int) : Rat) := by
    norm_num
  rw [harg, Int.floor_intCast]
  norm_num

/-- A config with a tiny positive electricity price. -/
def tinyPriceConfig : ConfigData := ⟨[], [], [], 1/10000⟩

/-- A fetch oracle delivering 1 Wh of today energy. -/
def oneWhFetch : FetchOracle :=
  ⟨Except.ok ⟨true, 3⟩, Except.ok (), Except.ok 0, Except.ok ⟨0, 1, 0, 0⟩⟩

/-- Counterexample to claim C9 as stated: with price 1/10000 > 0 and 1 Wh,
the exact cost `(1/1000)·(1/10000)` is nonzero but the reported field,
rounded to 4 decimals, is 0. -/
theorem plug_cost_rounding_cex :
    get_electricity_price tinyPriceConfig > 0 ∧
    (get_full_status oneWhFetch).today_energy = 1 ∧
    (get_plug_status tinyPriceConfig "p" "ip" oneWhFetch).today_cost = 0 ∧
    (get_full_status oneWhFetch).today_energy / 1000 *
      get_electricity_price tinyPriceConfig ≠ 0 := by
  have hpr : get_electricity_price tinyPriceConfig = 1 / 10000 := rfl
  have he : (get_full_status oneWhFetch).today_energy = 1 := rfl
  have hp : get_electricity_price tinyPriceConfig > 0 := by
    rw [hpr]
    norm_num
  refine ⟨hp, he, ?_, ?_⟩
  · have h1 : (get_plug_status tinyPriceConfig "p" "ip" oneWhFetch).today_cost =
        roundTo 4 (if get_electricity_price tinyPriceConfig > 0 then
          (get_full_status oneWhFetch).today_energy / 1000 *
            get_electricity_price tinyPriceConfig
        else 0) := rfl
    rw [h1, if_pos hp, he, hpr]
    unfold roundTo roundHalfEven
    have harg : ((1 : Rat) / 1000 * (1 / 10000)) * 10 ^ 4 = 1 / 1000 := by
      norm_num
    rw [harg]
    have hfloor : ⌊(1 : Rat) / 1000⌋ = 0 := by
      rw [Int.floor_eq_zero_iff]
      constructor <;> norm_num
    rw [hfloor]
    norm_num
  · rw [he, hpr]
    norm_num

end Homelab
